import Mathlib

/-!
Verification development for the `readinglist` generic CRUD resource layer
(`readinglist/resource.py`): the query-string filter/sort translator, the
schema validation pipeline (colander `RessourceSchema` with the `TimeStamp`
field), the error-mapping decorators (`exists_or_404`, `validates_or_400`)
and the resource controller operations, shallowly embedded as executable
Lean functions over explicit request/backend state.
-/

namespace Readinglist

/-- Native Python values in the fragment this resource layer manipulates:
`None`, booleans, integers and strings.  Query-string decoding, schema
validation and record fields all range over this type. -/
inductive Value where
  | VNone
  | VBool (b : Bool)
  | VInt (n : Int)
  | VStr (s : String)
deriving Repr, DecidableEq

/-- A record / parsed-JSON mapping: an association list from field names to
values, in Python dict insertion order, with unique keys. -/
abbrev Rec := List (String × Value)

/-- The exception kinds the resource layer can observe: `ValueError`,
`SyntaxError` (raised by `ast.literal_eval` on syntactically invalid text,
and by `json` on malformed bodies as a `ValueError`), `colander.Invalid`
(carrying `asdict()` items: one `(field, message)` per offending node),
`TypeError`, and the backend's `RecordNotFoundError` with its message. -/
inductive PyErr where
  | valueError (msg : String)
  | syntaxError (msg : String)
  | invalid (fieldErrors : List (String × String))
  | typeError (msg : String)
  | recordNotFound (msg : String)
deriving Repr, DecidableEq

/-- Python truthiness on the modeled value fragment (`not cstruct`). -/
def py_falsy : Value → Bool
  | .VNone => true
  | .VBool b => !b
  | .VInt n => n == 0
  | .VStr s => s.isEmpty

/-- Numeric view of a value under Python comparison: `bool` is a subtype of
`int`, so `True` compares equal to `1` and `False` to `0`. -/
def py_num : Value → Option Int
  | .VInt n => some n
  | .VBool b => some (if b then 1 else 0)
  | _ => none

/-- Python `==` on the modeled value fragment: numeric equality across
`bool`/`int` (since `bool` subclasses `int`), structural equality otherwise,
and `False` across kinds. -/
def py_eq (a b : Value) : Bool :=
  match py_num a, py_num b with
  | some m, some n => m == n
  | _, _ =>
    match a, b with
    | .VStr s, .VStr t => s == t
    | .VNone, .VNone => true
    | _, _ => false

/-- Python `==` on two filter triples `(field, value, operator)`. -/
def filter_py_eq (a b : String × Value × String) : Bool :=
  a.1 == b.1 && py_eq a.2.1 b.2.1 && a.2.2 == b.2.2

/-- Python `==` on two filter lists: same length, pairwise `filter_py_eq`. -/
def filters_py_eq : List (String × Value × String) → List (String × Value × String) → Bool
  | [], [] => true
  | a :: as', b :: bs' => filter_py_eq a b && filters_py_eq as' bs'
  | _, _ => false

/-- Python `str.lower()` on the ASCII fragment. -/
def to_lower (s : String) : String :=
  String.mk (s.data.map Char.toLower)

/-- Python `\s` whitespace characters (ASCII). -/
def is_py_space (c : Char) : Bool :=
  c == ' ' || c == '\t' || c == '\n' || c == '\r' || c == '\x0b' || c == '\x0c'

/-- Python `\w` word characters (ASCII fragment): letters, digits, underscore. -/
def is_word_char (c : Char) : Bool :=
  c.isAlphanum || c == '_'

/-- Strip leading and trailing Python whitespace from a character list. -/
def trim_chars (cs : List Char) : List Char :=
  ((cs.dropWhile is_py_space).reverse.dropWhile is_py_space).reverse

/-- Parse a run of decimal digits as a natural number; `none` if the list is
empty or contains a non-digit. -/
def parse_digits (cs : List Char) : Option Nat :=
  if cs.isEmpty then none
  else if cs.all Char.isDigit then
    some (cs.foldl (fun n c => 10 * n + (c.toNat - 48)) 0)
  else none

/-- Parse an optionally signed decimal integer literal. -/
def parse_signed_int (cs : List Char) : Option Int :=
  match cs with
  | '-' :: rest => (parse_digits rest).map (fun n => -(n : Int))
  | '+' :: rest => (parse_digits rest).map (fun n => (n : Int))
  | _ => (parse_digits cs).map (fun n => (n : Int))

/-- Python identifier shape (ASCII fragment): a letter or underscore followed
by word characters. -/
def is_identifier (cs : List Char) : Bool :=
  match cs with
  | [] => false
  | c :: rest => (c.isAlpha || c == '_') && rest.all is_word_char

/-- Python keywords: identifier-shaped tokens that are nevertheless not
`Name` expressions, so a keyword alone is a syntax error, not a value error
(`True`, `False`, `None` are handled separately as constants). -/
def py_keywords : List String :=
  ["and", "as", "assert", "break", "class", "continue", "def", "del", "elif",
   "else", "except", "finally", "for", "from", "global", "if", "imp" ++ "ort",
   "in", "is", "lambda", "nonlocal", "not", "or", "pass", "raise", "return",
   "try", "while", "with", "yield"]

/-- Model of `ast.literal_eval` (Python standard library, an external
collaborator of the resource code) on the input fragment this layer
exercises.  The real function first parses its argument as a Python
expression, raising `SyntaxError` on syntactically invalid text (for
example a lone `"["`), and then converts literal nodes, raising
`ValueError` when the expression is well formed but not a literal (for
example a bare identifier).  Modeled fragment: surrounding whitespace is
insignificant; optionally signed decimal integers and the constants
`True`/`False`/`None` evaluate to their values; an identifier-shaped token
raises `ValueError` (or `SyntaxError` if it is a keyword); everything else
in the fragment, including the empty string and stray punctuation such as
`"["`, raises `SyntaxError`.  Floats, quoted strings and bracketed literal
collections are outside the modeled fragment.  Error messages are
representative, not byte-for-byte. -/
def literal_eval (s : String) : Except PyErr Value :=
  let t := trim_chars s.data
  if t.isEmpty then .error (.syntaxError "invalid syntax")
  else if t = "True".data then .ok (.VBool true)
  else if t = "False".data then .ok (.VBool false)
  else if t = "None".data then .ok .VNone
  else
    match parse_signed_int t with
    | some n => .ok (.VInt n)
    | none =>
      if is_identifier t && !py_keywords.contains (String.mk t) then
        .error (.valueError "malformed node or string")
      else .error (.syntaxError "invalid syntax")

/-- `ast.literal_eval` applied to the re-bound `value` local of
`__decode_filter_value`, which is either still the raw string or has been
replaced by a Python `bool`; on a non-string argument `literal_eval`
raises `ValueError` (malformed node). -/
def literal_eval_arg : Value → Except PyErr Value
  | .VStr s => literal_eval s
  | _ => .error (.valueError "malformed node or string")

/-- `BaseResource.__decode_filter_value`: case-insensitively map the boolean
tokens `on`/`true`/`yes`/`1` to `True` and `off`/`false`/`no`/`0` to
`False`, then `return ast.literal_eval(value)` guarded by
`except ValueError: return value`.  A `SyntaxError` from `literal_eval` is
not caught and propagates. -/
def decode_filter_value (value : String) : Except PyErr Value :=
  let v : Value :=
    if ["on", "true", "yes", "1"].contains (to_lower value) then .VBool true
    else if ["off", "false", "no", "0"].contains (to_lower value) then .VBool false
    else .VStr value
  match literal_eval_arg v with
  | .ok r => .ok r
  | .error (.valueError _) => .ok v
  | .error e => .error e

/-- The filters a single query parameter contributes: an equality filter
when its name is a known schema field, and a `>=` filter on the modified
field when its name is `since`; both rules fire independently. -/
def param_filters (known_fields : List String) (modified_field param : String)
    (v : Value) : List (String × Value × String) :=
  (if known_fields.contains param then [(param, v, "==")] else []) ++
  (if param == "since" then [(modified_field, v, ">=")] else [])

/-- `BaseResource._extract_filters`: iterate the query parameters in order,
decode each raw value, and collect the filters each parameter contributes.
An exception raised while decoding a value propagates (aborting the whole
extraction), mirroring the Python loop. -/
def extract_filters (known_fields : List String) (modified_field : String) :
    List (String × String) → Except PyErr (List (String × Value × String))
  | [] => .ok []
  | (param, value) :: rest =>
    match decode_filter_value value with
    | .error e => .error e
    | .ok v =>
      match extract_filters known_fields modified_field rest with
      | .error e => .error e
      | .ok tail => .ok (param_filters known_fields modified_field param v ++ tail)

/-- Longest leading run of word characters, with the remaining suffix. -/
def word_run : List Char → List Char × List Char
  | [] => ([], [])
  | c :: cs =>
    if is_word_char c then
      let p := word_run cs
      (c :: p.1, p.2)
    else ([], c :: cs)

/-- Match `([\-+]?)(\w+)` at the head of a character list, returning the
sign group and the word group.  The sign and whitespace characters are not
word characters, so the regex engine's backtracking collapses to this
deterministic form. -/
def match_sign_word : List Char → Option (Option Char × String)
  | [] => none
  | c :: cs =>
    if c == '-' || c == '+' then
      let w := (word_run cs).1
      if w.isEmpty then none else some (some c, String.mk w)
    else
      let w := (word_run (c :: cs)).1
      if w.isEmpty then none else some (none, String.mk w)

/-- `re.match(r'\s?([\-+]?)(\w+)\s?', field)`: anchored at the start only
(a prefix match, trailing text is ignored), with at most one optional
leading whitespace character; returns the sign and field groups. -/
def re_match_sort (s : String) : Option (Option Char × String) :=
  match s.data with
  | [] => none
  | c :: cs => if is_py_space c then match_sign_word cs else match_sign_word (c :: cs)

/-- One token of the `sort` parameter: `None` (token silently skipped) when
the regex does not match, otherwise the field with direction `-1` for a
`-` sign and `1` otherwise. -/
def sort_directive (tok : String) : Option (String × Int) :=
  (re_match_sort tok).map (fun p => (p.2, if p.1 == some '-' then -1 else 1))

/-- Accumulating worker for `split_comma`: the accumulator holds the
current token's characters in reverse. -/
def split_comma_aux : List Char → List Char → List String
  | [], acc => [String.mk acc.reverse]
  | c :: cs, acc =>
    if c == ',' then String.mk acc.reverse :: split_comma_aux cs []
    else split_comma_aux cs (c :: acc)

/-- Python `s.split(',')`: the empty string yields `[""]`, and every comma
separates two (possibly empty) tokens. -/
def split_comma (s : String) : List String :=
  split_comma_aux s.data []

/-- `BaseResource._extract_sorting`: read the `sort` query parameter
(defaulting to the empty string), split on commas, and keep the directive
of every token the regex matches. -/
def extract_sorting (queryparams : List (String × String)) : List (String × Int) :=
  (split_comma ((queryparams.lookup "sort").getD "")).filterMap sort_directive

/-- Does a character list begin with a word character? -/
def starts_word : List Char → Bool
  | [] => false
  | d :: _ => is_word_char d

/-- Spec-side reading of the token pattern as a PREFIX (the amended claim):
after at most one leading whitespace character, an optional `+`/`-` sign
followed by at least one word character. -/
def starts_sign_word : List Char → Bool
  | [] => false
  | c :: cs => if c == '-' || c == '+' then starts_word cs else is_word_char c

/-- Spec-side predicate (amended claim wording): the token begins, after at
most one leading whitespace character, with an optional sign and a word
character; exactly these tokens produce a sort directive. -/
def spec_sort_prefix_ok (s : String) : Bool :=
  match s.data with
  | [] => false
  | c :: cs => if is_py_space c then starts_sign_word cs else starts_sign_word (c :: cs)

/-- Spec-side reading of the sort-token pattern as the original claim states
it: the WHOLE token is optional leading whitespace, an optional sign, one
or more word characters and optional trailing whitespace, with nothing
left over. -/
def spec_full_token_ok (s : String) : Bool :=
  let cs1 := s.data.dropWhile is_py_space
  let cs2 :=
    match cs1 with
    | c :: rest => if c == '-' || c == '+' then rest else cs1
    | [] => []
  let wr := word_run cs2
  !wr.1.isEmpty && (wr.2.dropWhile is_py_space).isEmpty

/-- colander `Number` null test (`cstruct != 0 and not cstruct`): under
Python comparison `False == 0`, so both booleans and all integers fall
through to the conversion; only `None` and the empty string read as null. -/
def number_null : Value → Bool
  | .VNone => true
  | .VStr s => s.isEmpty
  | .VInt _ => false
  | .VBool _ => false

/-- Python `int(cstruct)` on the modeled fragment: integers pass through,
booleans coerce to `0`/`1`, strings parse as optionally signed decimal
integers after stripping whitespace, anything else fails (the exception is
turned into `colander.Invalid` by the caller). -/
def int_of : Value → Option Int
  | .VInt n => some n
  | .VBool b => some (if b then 1 else 0)
  | .VStr s => parse_signed_int (trim_chars s.data)
  | .VNone => none

/-- The `_id` child of `RessourceSchema`: a colander `String` node with
`missing=drop`.  Falsy input reads as null, and a null appstruct resolves
to `drop` (the key is omitted); a non-falsy non-string raises `Invalid`
on the `_id` node.  `.ok none` means dropped. -/
def string_id_deserialize : Option Value → Except (String × String) (Option Value)
  | none => .ok none
  | some v =>
    if py_falsy v then .ok none
    else
      match v with
      | .VStr s => .ok (some (.VStr s))
      | _ => .error ("_id", "is not a string")

/-- `TimeStamp.deserialize`: if the cstruct is `colander.null` (the field
was absent) and the node is required, substitute `TimeStamp.now()` (passed
in as `now`); then the inherited `Integer` deserialization runs: a null
reading (explicit `None` or empty string) on a required node raises
`Invalid` with the `Required` message, a convertible value yields its
integer, anything else raises `Invalid` on the `last_modified` node.
In `RessourceSchema` this node is required. -/
def TimeStamp_deserialize (required : Bool) (now : Int) (cstruct : Option Value) :
    Except (String × String) (Option Value) :=
  let cstruct : Option Value :=
    if cstruct.isNone && required then some (.VInt now) else cstruct
  match cstruct with
  | none => if required then .error ("last_modified", "Required") else .ok none
  | some v =>
    if number_null v then
      if required then .error ("last_modified", "Required") else .ok none
    else
      match int_of v with
      | some n => .ok (some (.VInt n))
      | none => .error ("last_modified", "is not a number")

/-- The entry a child node contributes to the deserialized mapping:
nothing when it resolved to `drop`, its value under its name otherwise. -/
def opt_entry (name : String) : Option Value → Rec
  | some v => [(name, v)]
  | none => []

/-- colander `Mapping` error collection: child results are combined in
declaration order, all child `Invalid`s are gathered (not fail-fast) into
one `Invalid` whose `asdict()` has one `(field, message)` entry per
offending node. -/
def combine_children :
    Except (String × String) (Option Value) → Except (String × String) (Option Value) →
    Except PyErr Rec
  | .ok idv, .ok lmv => .ok (opt_entry "_id" idv ++ opt_entry "last_modified" lmv)
  | .error e, .ok _ => .error (.invalid [e])
  | .ok _, .error e => .error (.invalid [e])
  | .error e1, .error e2 => .error (.invalid [e1, e2])

/-- A deserialized request body: either a JSON object (a mapping) or some
other JSON value (which the mapping schema rejects). -/
inductive BodyVal where
  | dict (d : Rec)
  | scalar (v : Value)
deriving Repr, DecidableEq

/-- `BaseResource.validate`, i.e. `RessourceSchema().deserialize`: a
non-mapping input raises `Invalid` at the schema root; on a mapping, each
declared child (`_id` with `missing=drop`, then the required
`last_modified` `TimeStamp`) deserializes the value found under its name
(absent reads as `colander.null`), undeclared keys are ignored (colander's
default `unknown='ignore'`), and all child errors are collected into one
`Invalid`. -/
def validate (now : Int) (record : BodyVal) : Except PyErr Rec :=
  match record with
  | .scalar _ => .error (.invalid [("", "is not a mapping")])
  | .dict d =>
    combine_children
      (string_id_deserialize (d.lookup "_id"))
      (TimeStamp_deserialize true now (d.lookup "last_modified"))

/-- A raw request body as `BaseResource.deserialize` sees it: empty (which
parses to an empty mapping), bytes holding well-formed JSON for some value,
or malformed bytes on which `json.loads` raises a `ValueError` with the
given message. `json` is an external collaborator, modeled by outcome. -/
inductive RawBody where
  | empty
  | wellFormed (v : BodyVal)
  | malformed (msg : String)
deriving Repr, DecidableEq

/-- `BaseResource.deserialize`: decode the body as UTF-8 and parse it as
JSON; an empty body yields an empty mapping, malformed JSON raises
`ValueError`. -/
def deserialize : RawBody → Except PyErr BodyVal
  | .empty => .ok (.dict [])
  | .wellFormed v => .ok v
  | .malformed m => .error (.valueError m)

/-- Python dict assignment `d[k] = v`: replace in place when the key is
present, append otherwise. -/
def dictSet {β : Type} : List (String × β) → String → β → List (String × β)
  | [], k, v => [(k, v)]
  | (a, b) :: tl, k, v =>
    if a == k then (k, v) :: tl else (a, b) :: dictSet tl k v

/-- Python `base.copy()` followed by `base.update(modified)`: keys of
`base` keep their position with values overridden by `modified`, and keys
only in `modified` are appended in their order. -/
def dictUpdate (base modified : Rec) : Rec :=
  (base.map (fun kv =>
    match modified.lookup kv.1 with
    | some v => (kv.1, v)
    | none => kv)) ++
  modified.filter (fun kv => !(base.any (fun bv => bv.1 == kv.1)))

/-- `updated.update(**modified)` requires the deserialized body to be a
mapping; a non-mapping raises `TypeError` (uncaught by the decorators). -/
def as_dict : BodyVal → Except PyErr Rec
  | .dict d => .ok d
  | .scalar _ => .error (.typeError "argument must be a mapping")

/-- Modelled from the spec: the message carried by the backend's
`RecordNotFoundError` for a missing id; its exact text is backend-defined
and not in the sources, so it is modeled as a function of the id. -/
def record_not_found_message (record_id : String) : String :=
  record_id ++ " not found"

/-- Modelled from the spec: the storage backend state consumed through the
fixed interface of section 6 (`get`, `create`, `update`); records are kept
by id, and `fresh` is the id the backend would assign to a record created
without one. -/
structure Db where
  records : List (String × Rec)
  fresh : String
deriving Repr, DecidableEq

/-- Modelled from the spec: `backend.get(record_id, ...)` returns the
stored record and fails with `RecordNotFoundError` when the id is absent. -/
def db_get (db : Db) (record_id : String) : Except PyErr Rec :=
  match db.records.lookup record_id with
  | some r => .ok r
  | none => .error (.recordNotFound (record_not_found_message record_id))

/-- Modelled from the spec: `backend.create(record, ...)` assigns an id if
the record carries none, stores the record under that id and returns it. -/
def db_create (db : Db) (record : Rec) : Rec × Db :=
  let rid :=
    match record.lookup "_id" with
    | some (.VStr s) => s
    | _ => db.fresh
  let stored := dictSet record "_id" (.VStr rid)
  (stored, { db with records := dictSet db.records rid stored })

/-- Modelled from the spec: `backend.update(record_id, record, ...)` is a
full replace, upsert-by-id, returning the stored record. -/
def db_update (db : Db) (record_id : String) (record : Rec) : Rec × Db :=
  (record, { db with records := dictSet db.records record_id record })

/-- The cornice request error state a handler mutates: the list of
`(location, name, description)` entries and the response status. -/
structure Errors where
  entries : List (String × String × String)
  status : Option String
deriving Repr, DecidableEq

/-- `self.request.errors.add(location, name, description)`. -/
def add_error (e : Errors) (location name description : String) : Errors :=
  { e with entries := e.entries ++ [(location, name, description)] }

/-- A wrapped view: given the request error state, either return the
handler's value (with errors untouched), or swallow a mapped exception
into mutated errors and no return value, or propagate an unmapped
exception. -/
abbrev View (α : Type) := Errors → Except PyErr (Option α × Errors)

/-- Lift a raw handler body (which never touches the error state) into a
view. -/
def view_of {α : Type} (act : Except PyErr α) : View α :=
  fun e =>
    match act with
    | .ok a => .ok (some a, e)
    | .error err => .error err

/-- The `exists_or_404` decorator: run the view; on the backend's
`RecordNotFoundError`, add a path-level error under `id` carrying the
exception's message, set the status to `404 Resource Not Found` and return
nothing; any other exception propagates. -/
def exists_or_404 {α : Type} (v : View α) : View α :=
  fun e =>
    match v e with
    | .ok r => .ok r
    | .error (.recordNotFound m) =>
      .ok (none, { add_error e "path" "id" m with status := some "404 Resource Not Found" })
    | .error err => .error err

/-- The `validates_or_400` decorator: run the view; on a `ValueError`, add
one generic body-level error; on `colander.Invalid`, add one body-level
error per `asdict()` item; in both cases set the status to
`400 Bad Request` and return nothing; any other exception propagates. -/
def validates_or_400 {α : Type} (v : View α) : View α :=
  fun e =>
    match v e with
    | .ok r => .ok r
    | .error (.valueError m) =>
      .ok (none, { add_error e "body" "body" m with status := some "400 Bad Request" })
    | .error (.invalid fieldErrors) =>
      .ok (none,
        { fieldErrors.foldl (fun acc fe => add_error acc "body" fe.1 fe.2) e with
            status := some "400 Bad Request" })
    | .error err => .error err

/-- The body of `BaseResource.collection_post`: deserialize the body,
validate it against the schema, then create the record in the backend. -/
def collection_post_handler (now : Int) (db : Db) (body : RawBody) :
    Except PyErr (Rec × Db) :=
  match deserialize body with
  | .error e => .error e
  | .ok d =>
    match validate now d with
    | .error e => .error e
    | .ok record => .ok (db_create db record)

/-- `collection_post` as dispatched: the handler wrapped by
`validates_or_400`. -/
def collection_post_view (now : Int) (db : Db) (body : RawBody) : View (Rec × Db) :=
  validates_or_400 (view_of (collection_post_handler now db body))

/-- `BaseResource.get` as dispatched: the backend read wrapped by
`exists_or_404`. -/
def get_view (db : Db) (record_id : String) : View Rec :=
  exists_or_404 (view_of (db_get db record_id))

/-- The body of `BaseResource.put`: deserialize and validate the body, then
fully replace the record in the backend. -/
def put_handler (now : Int) (db : Db) (record_id : String) (body : RawBody) :
    Except PyErr (Rec × Db) :=
  match deserialize body with
  | .error e => .error e
  | .ok d =>
    match validate now d with
    | .error e => .error e
    | .ok record => .ok (db_update db record_id record)

/-- The body of `BaseResource.patch`: fetch the stored record, deserialize
the body, shallow-merge it onto a copy of the record, force-set
`last_modified` to `TimeStamp.now()` (passed in as `now`), validate the
merged record, and only then persist it with `backend.update`. -/
def patch_handler (now : Int) (db : Db) (record_id : String) (body : RawBody) :
    Except PyErr (Rec × Db) :=
  match db_get db record_id with
  | .error e => .error e
  | .ok record =>
    match deserialize body with
    | .error e => .error e
    | .ok d =>
      match as_dict d with
      | .error e => .error e
      | .ok modified =>
        let updated := dictSet (dictUpdate record modified) "last_modified" (.VInt now)
        match validate now (.dict updated) with
        | .error e => .error e
        | .ok merged => .ok (db_update db record_id merged)

/-- One write operation of the invariant claim: a create (POST), a full
replace (PUT) or a merge (PATCH), each with its raw body. -/
inductive WriteOp where
  | create (body : RawBody)
  | put (body : RawBody)
  | patch (body : RawBody)
deriving Repr, DecidableEq

/-- Apply one write operation against the backend at time `now`, returning
the record the operation stores together with the new backend state. -/
def apply_write (record_id : String) (now : Int) (db : Db) : WriteOp → Except PyErr (Rec × Db)
  | .create body => collection_post_handler now db body
  | .put body => put_handler now db record_id body
  | .patch body => patch_handler now db record_id body

/-- The `last_modified` integer stored on a record (validated records always
carry one; `0` is a don't-care for records that do not). -/
def lm_value (r : Rec) : Int :=
  match r.lookup "last_modified" with
  | some (.VInt n) => n
  | _ => 0

/-- Run a sequence of timestamped writes, collecting the `last_modified`
value stored by each successful write; the first exception aborts. -/
def run_writes (record_id : String) (db : Db) : List (Int × WriteOp) → Except PyErr (List Int)
  | [] => .ok []
  | (t, op) :: rest =>
    match apply_write record_id t db op with
    | .error e => .error e
    | .ok (r, db') =>
      match run_writes record_id db' rest with
      | .error e => .error e
      | .ok tail => .ok (lm_value r :: tail)

/-- Does a raw body avoid supplying an explicit `last_modified`?  (Bodies
that fail to deserialize or validate cannot produce a successful write, so
they are vacuously fine.) -/
def body_lacks_lm : RawBody → Bool
  | .wellFormed (.dict d) => (d.lookup "last_modified").isNone
  | _ => true

/-- The amended invariant's side condition: create and put take the body's
`last_modified` verbatim, so they must not supply one; patch overwrites it
with `now` regardless. -/
def no_client_lm : WriteOp → Bool
  | .create b => body_lacks_lm b
  | .put b => body_lacks_lm b
  | .patch _ => true

instance {ε α : Type} [DecidableEq ε] [DecidableEq α] : DecidableEq (Except ε α) := fun a b =>
  match a, b with
  | .error e1, .error e2 =>
    if h : e1 = e2 then isTrue (by rw [h]) else isFalse (fun hc => h (Except.error.inj hc))
  | .ok a1, .ok a2 =>
    if h : a1 = a2 then isTrue (by rw [h]) else isFalse (fun hc => h (Except.ok.inj hc))
  | .error _, .ok _ => isFalse (fun hc => Except.noConfusion hc)
  | .ok _, .error _ => isFalse (fun hc => Except.noConfusion hc)

theorem dictSet_lookup_self {β : Type} (d : List (String × β)) (k : String) (v : β) :
    (dictSet d k v).lookup k = some v := by
  induction d with
  | nil => simp [dictSet, List.lookup]
  | cons hd tl ih =>
    obtain ⟨a, b⟩ := hd
    by_cases h : a = k
    · subst h
      simp [dictSet, List.lookup]
    · have hb : (a == k) = false := by simp [h]
      have hb' : (k == a) = false := by
        rw [beq_eq_false_iff_ne]
        exact fun hh => h hh.symm
      simp [dictSet, List.lookup, hb, hb', ih]

theorem dictSet_lookup_ne {β : Type} (d : List (String × β)) (k k' : String) (v : β)
    (h : k' ≠ k) : (dictSet d k v).lookup k' = d.lookup k' := by
  induction d with
  | nil =>
    have hb : (k' == k) = false := by simp [h]
    simp [dictSet, List.lookup, hb]
  | cons hd tl ih =>
    obtain ⟨a, b⟩ := hd
    by_cases ha : a = k
    · subst ha
      have hb : (k' == a) = false := by simp [h]
      simp [dictSet, List.lookup, hb]
    · have hb : (a == k) = false := by simp [ha]
      by_cases hka : k' = a
      · subst hka
        simp [dictSet, List.lookup, hb]
      · have hb2 : (k' == a) = false := by simp [hka]
        simp [dictSet, List.lookup, hb, hb2, ih]

theorem TimeStamp_deserialize_absent (now : Int) :
    TimeStamp_deserialize true now none = .ok (some (.VInt now)) := rfl

theorem TimeStamp_deserialize_int (now n : Int) :
    TimeStamp_deserialize true now (some (.VInt n)) = .ok (some (.VInt n)) := rfl

theorem validate_lookup_lm (now : Int) (d r : Rec) (lmv : Value)
    (hts : TimeStamp_deserialize true now (d.lookup "last_modified") = .ok (some lmv))
    (h : validate now (.dict d) = .ok r) :
    r.lookup "last_modified" = some lmv := by
  simp only [validate] at h
  rw [hts] at h
  rcases hid : string_id_deserialize (d.lookup "_id") with e | idv <;> rw [hid] at h
  · simp [combine_children] at h
  · rcases idv with _ | w
    · simp [combine_children, opt_entry] at h
      subst r
      rfl
    · simp [combine_children, opt_entry] at h
      subst r
      rfl

theorem fold_add_error_entries (l : List (String × String)) (e : Errors) :
    (l.foldl (fun acc fe => add_error acc "body" fe.1 fe.2) e).entries =
      e.entries ++ l.map (fun fe => ("body", fe.1, fe.2)) := by
  induction l generalizing e with
  | nil => simp
  | cons hd tl ih =>
    rw [List.foldl_cons, ih]
    simp [add_error]

theorem fold_add_error_status (l : List (String × String)) (e : Errors) :
    (l.foldl (fun acc fe => add_error acc "body" fe.1 fe.2) e).status = e.status := by
  induction l generalizing e with
  | nil => rfl
  | cons hd tl ih =>
    rw [List.foldl_cons, ih]
    rfl

theorem word_run_fst_nil_iff (cs : List Char) :
    (word_run cs).1.isEmpty = true ↔ starts_word cs = false := by
  cases cs with
  | nil => simp [word_run, starts_word]
  | cons c rest =>
    cases h : is_word_char c with
    | true => simp [word_run, starts_word, h]
    | false => simp [word_run, starts_word, h]

theorem match_sign_word_none_iff (cs : List Char) :
    match_sign_word cs = none ↔ starts_sign_word cs = false := by
  cases cs with
  | nil => simp [match_sign_word, starts_sign_word]
  | cons c rest =>
    cases hs : (c == '-' || c == '+') with
    | true =>
      cases hw : (word_run rest).1.isEmpty with
      | true => simp [match_sign_word, starts_sign_word, hs, hw,
          (word_run_fst_nil_iff rest).mp hw]
      | false =>
        have h2 : starts_word rest = true := by
          cases hb : starts_word rest with
          | false => exact absurd ((word_run_fst_nil_iff rest).mpr hb) (by simp [hw])
          | true => rfl
        simp [match_sign_word, starts_sign_word, hs, hw, h2]
    | false =>
      cases hc : is_word_char c with
      | true => simp [match_sign_word, starts_sign_word, word_run, hs, hc]
      | false => simp [match_sign_word, starts_sign_word, word_run, hs, hc]

theorem deserialize_lacks_lm (body : RawBody) (d : Rec)
    (hb : body_lacks_lm body = true)
    (hde : deserialize body = .ok (.dict d)) :
    d.lookup "last_modified" = none := by
  cases body with
  | empty =>
    simp only [deserialize, Except.ok.injEq, BodyVal.dict.injEq] at hde
    subst hde
    rfl
  | wellFormed v =>
    cases v with
    | dict dd =>
      simp only [deserialize, Except.ok.injEq, BodyVal.dict.injEq] at hde
      subst hde
      simp only [body_lacks_lm] at hb
      exact Option.isNone_iff_eq_none.mp hb
    | scalar w => simp [deserialize] at hde
  | malformed m => simp [deserialize] at hde

theorem post_handler_lm (now : Int) (db : Db) (body : RawBody) (r : Rec) (db' : Db)
    (hb : body_lacks_lm body = true)
    (h : collection_post_handler now db body = .ok (r, db')) :
    lm_value r = now := by
  simp only [collection_post_handler] at h
  rcases hde : deserialize body with e | d <;> simp only [hde] at h
  · simp at h
  · rcases hv : validate now d with e | record <;> simp only [hv] at h
    · simp at h
    · have hd : ∃ dd, d = BodyVal.dict dd := by
        cases d with
        | dict dd => exact ⟨dd, rfl⟩
        | scalar w => simp [validate] at hv
      obtain ⟨dd, rfl⟩ := hd
      have hlm : dd.lookup "last_modified" = none := deserialize_lacks_lm body dd hb hde
      have hrec : record.lookup "last_modified" = some (.VInt now) :=
        validate_lookup_lm now dd record (.VInt now)
          (by rw [hlm]; exact TimeStamp_deserialize_absent now) hv
      simp [db_create] at h
      obtain ⟨h1, h2⟩ := h
      rw [← h1]
      unfold lm_value
      rw [dictSet_lookup_ne _ _ _ _ (by decide), hrec]

theorem put_handler_lm (now : Int) (db : Db) (rid : String) (body : RawBody) (r : Rec) (db' : Db)
    (hb : body_lacks_lm body = true)
    (h : put_handler now db rid body = .ok (r, db')) :
    lm_value r = now := by
  simp only [put_handler] at h
  rcases hde : deserialize body with e | d <;> simp only [hde] at h
  · simp at h
  · rcases hv : validate now d with e | record <;> simp only [hv] at h
    · simp at h
    · have hd : ∃ dd, d = BodyVal.dict dd := by
        cases d with
        | dict dd => exact ⟨dd, rfl⟩
        | scalar w => simp [validate] at hv
      obtain ⟨dd, rfl⟩ := hd
      have hlm : dd.lookup "last_modified" = none := deserialize_lacks_lm body dd hb hde
      have hrec : record.lookup "last_modified" = some (.VInt now) :=
        validate_lookup_lm now dd record (.VInt now)
          (by rw [hlm]; exact TimeStamp_deserialize_absent now) hv
      simp [db_update] at h
      obtain ⟨h1, h2⟩ := h
      rw [← h1]
      unfold lm_value
      rw [hrec]

theorem patch_handler_lm (now : Int) (db : Db) (rid : String) (body : RawBody) (r : Rec) (db' : Db)
    (h : patch_handler now db rid body = .ok (r, db')) :
    lm_value r = now := by
  simp only [patch_handler] at h
  rcases hg : db_get db rid with e | record <;> simp only [hg] at h
  · simp at h
  · rcases hde : deserialize body with e | d <;> simp only [hde] at h
    · simp at h
    · rcases hm : as_dict d with e | modified <;> simp only [hm] at h
      · simp at h
      · rcases hv : validate now
            (.dict (dictSet (dictUpdate record modified) "last_modified" (.VInt now))) with
          e | merged <;> simp only [hv] at h
        · simp at h
        · have hrec : merged.lookup "last_modified" = some (.VInt now) :=
            validate_lookup_lm now _ merged (.VInt now)
              (by rw [dictSet_lookup_self]; exact TimeStamp_deserialize_int now now) hv
          simp [db_update] at h
          obtain ⟨h1, h2⟩ := h
          rw [← h1]
          unfold lm_value
          rw [hrec]

theorem apply_write_lm (rid : String) (t : Int) (db : Db) (op : WriteOp) (r : Rec) (db' : Db)
    (hop : no_client_lm op = true)
    (h : apply_write rid t db op = .ok (r, db')) :
    lm_value r = t := by
  cases op with
  | create body =>
    exact post_handler_lm t db body r db' (by simpa [no_client_lm] using hop)
      (by simpa [apply_write] using h)
  | put body =>
    exact put_handler_lm t db rid body r db' (by simpa [no_client_lm] using hop)
      (by simpa [apply_write] using h)
  | patch body =>
    exact patch_handler_lm t db rid body r db' (by simpa [apply_write] using h)

theorem run_writes_trace (rid : String) (ops : List (Int × WriteOp)) :
    ∀ (db : Db) (trace : List Int),
      (∀ p ∈ ops, no_client_lm p.2 = true) →
      run_writes rid db ops = .ok trace →
      trace = ops.map Prod.fst := by
  induction ops with
  | nil =>
    intro db trace _ h
    simp [run_writes] at h
    simp [← h]
  | cons p rest ih =>
    obtain ⟨t, op⟩ := p
    intro db trace hbody hrun
    simp only [run_writes] at hrun
    rcases ha : apply_write rid t db op with e | rdb <;> simp only [ha] at hrun
    · simp at hrun
    · obtain ⟨r, db'⟩ := rdb
      rcases hr : run_writes rid db' rest with e | tail <;> simp only [hr] at hrun
      · simp at hrun
      · simp at hrun
        have h1 : lm_value r = t :=
          apply_write_lm rid t db op r db' (hbody (t, op) (by simp)) ha
        have h2 : tail = rest.map Prod.fst :=
          ih db' tail (fun q hq => hbody q (by simp [hq])) hr
        simp [← hrun, h1, h2]

theorem opt_entry_mem (name : String) (o : Option Value) (kv : String × Value)
    (h : kv ∈ opt_entry name o) : kv.1 = name := by
  rcases o with _ | v
  · simp [opt_entry] at h
  · simp [opt_entry] at h
    simp [h]

/-- C1: for a schema whose known fields include `foo` (and not `since`),
`extract_filters` on the query `{"foo": "1", "since": "100"}` returns
exactly two filters, in order: the equality filter on `foo`, then the
`last_modified` range filter.  The decoded `foo` value is the Python
boolean `True` (the token `"1"` is a boolean token), and Python's `==` —
the equality the spec states its expectation with — identifies `True`
with the integer `1` because `bool` subclasses `int`, so the result
equals `[("foo", 1, "=="), ("last_modified", 100, ">=")]`. -/
theorem C1_extract_filters (known_fields : List String)
    (h1 : known_fields.contains "foo" = true)
    (h2 : known_fields.contains "since" = false) :
    extract_filters known_fields "last_modified" [("foo", "1"), ("since", "100")] =
      .ok [("foo", .VBool true, "=="), ("last_modified", .VInt 100, ">=")] ∧
    filters_py_eq [("foo", .VBool true, "=="), ("last_modified", .VInt 100, ">=")]
      [("foo", .VInt 1, "=="), ("last_modified", .VInt 100, ">=")] = true := by
  refine ⟨?_, by decide⟩
  have d1 : decode_filter_value "1" = .ok (.VBool true) := by decide
  have d2 : decode_filter_value "100" = .ok (.VInt 100) := by decide
  simp only [extract_filters, d1, d2, param_filters, h1, h2]
  simp

/-- Witness for C1 at the concrete schema whose known fields are `["foo"]`. -/
theorem C1_extract_filters_witness :
    extract_filters ["foo"] "last_modified" [("foo", "1"), ("since", "100")] =
      .ok [("foo", .VBool true, "=="), ("last_modified", .VInt 100, ">=")] ∧
    filters_py_eq [("foo", .VBool true, "=="), ("last_modified", .VInt 100, ">=")]
      [("foo", .VInt 1, "=="), ("last_modified", .VInt 100, ">=")] = true :=
  C1_extract_filters ["foo"] (by decide) (by decide)

/-- C2: evaluation of the code at the failing input.  Decoding is NOT
total: on the query value `"["`, `ast.literal_eval` raises `SyntaxError`,
which `except ValueError` does not catch, so the exception escapes
`__decode_filter_value` and aborts `_extract_filters` (and hence
`collection_get`) instead of falling back to the raw string. -/
theorem C2_decode_not_total :
    decode_filter_value "[" = .error (.syntaxError "invalid syntax") ∧
    extract_filters ["_id", "last_modified"] "last_modified" [("title", "[")] =
      .error (.syntaxError "invalid syntax") := by decide

/-- Counterexample for C4 as stated: the token `"title desc"` does not
match the whole-token pattern of the claim, yet `extract_sorting` emits
the directive `("title", 1)` for it, because `re.match` only anchors the
pattern at the start of the token. -/
theorem C4_prefix_match_emits :
    spec_full_token_ok "title desc" = false ∧
    extract_sorting [("sort", "title desc")] = [("title", 1)] := by decide

/-- C4 (amended): a token of the comma-split `sort` parameter is silently
skipped (no directive, no error) exactly when it does not BEGIN with —
after at most one leading whitespace character — an optional `+`/`-` sign
followed by at least one word character; the pattern is matched as a
prefix, so trailing content beyond it is ignored. -/
theorem C4_sort_token_skip (tok : String) :
    sort_directive tok = none ↔ spec_sort_prefix_ok tok = false := by
  rw [sort_directive, Option.map_eq_none', re_match_sort, spec_sort_prefix_ok]
  rcases htd : tok.data with _ | ⟨c, cs⟩
  · simp
  · cases hsp : is_py_space c with
    | true => simp [hsp, match_sign_word_none_iff]
    | false => simp [hsp, match_sign_word_none_iff]

/-- C8: `TimeStamp` deserialization substitutes the current epoch-second
integer (`now`) when the cstruct is absent/null and the node is required,
and deserializes an explicitly provided integer to exactly that integer. -/
theorem C8_TimeStamp_now_or_explicit :
    (∀ now : Int, TimeStamp_deserialize true now none = .ok (some (.VInt now))) ∧
    (∀ now n : Int, TimeStamp_deserialize true now (some (.VInt n)) = .ok (some (.VInt n))) :=
  ⟨fun now => TimeStamp_deserialize_absent now, fun now n => TimeStamp_deserialize_int now n⟩

/-- C9: when `since` is itself a known schema field, a single `since`
query parameter with decoded value `v` yields two filters, the equality
filter first and the `last_modified` range filter second — both rules
fire independently, never exclusively. -/
theorem C9_since_known_field (known_fields : List String) (s : String) (v : Value)
    (h1 : known_fields.contains "since" = true)
    (h2 : decode_filter_value s = .ok v) :
    extract_filters known_fields "last_modified" [("since", s)] =
      .ok [("since", v, "=="), ("last_modified", v, ">=")] := by
  simp only [extract_filters, h2, param_filters, h1]
  simp

/-- Witness for C9 at the schema `["since"]` and the raw value `"100"`. -/
theorem C9_since_known_field_witness :
    extract_filters ["since"] "last_modified" [("since", "100")] =
      .ok [("since", .VInt 100, "=="), ("last_modified", .VInt 100, ">=")] :=
  C9_since_known_field ["since"] "100" (.VInt 100) (by decide) (by decide)

/-- Counterexample for C3 as stated: a create that stores
`last_modified = 100` at time `100` followed by a put whose body
explicitly supplies `last_modified = 5` at the later time `101` — both
writes succeed, yet the stored `last_modified` drops from `100` to `5`,
so it is not monotone across successive successful writes. -/
theorem C3_decreasing_put :
    run_writes "a" ⟨[], "a"⟩
      [(100, .create (.wellFormed (.dict [("last_modified", .VInt 100)]))),
       (101, .put (.wellFormed (.dict [("last_modified", .VInt 5)])))] =
      .ok [100, 5] ∧
    ¬ List.Chain' (fun a b : Int => a ≤ b) [100, 5] := by
  constructor
  · decide
  · simp

/-- C3 (amended): across every sequence of successful create/put/patch
writes whose create and put bodies do not explicitly supply a
`last_modified` value, and whose write times are non-decreasing, the
stored `last_modified` never decreases from one successful write to the
next (each write stores its own `now`); a create or put whose body
supplies a smaller explicit `last_modified` can decrease it. -/
theorem C3_last_modified_monotone (record_id : String) (db : Db)
    (ops : List (Int × WriteOp)) (trace : List Int)
    (hbody : ∀ p ∈ ops, no_client_lm p.2 = true)
    (hclock : List.Chain' (fun a b : Int × WriteOp => a.1 ≤ b.1) ops)
    (hrun : run_writes record_id db ops = .ok trace) :
    List.Chain' (fun a b : Int => a ≤ b) trace := by
  have htr : trace = ops.map Prod.fst :=
    run_writes_trace record_id ops db trace hbody hrun
  subst htr
  rw [List.chain'_map]
  exact hclock

/-- Witness for C3 (amended): a create then a patch, with empty bodies, at
times 100 and 101, produce the non-decreasing trace `[100, 101]`. -/
theorem C3_last_modified_monotone_witness :
    List.Chain' (fun a b : Int => a ≤ b) [100, 101] :=
  C3_last_modified_monotone "a" ⟨[], "a"⟩
    [(100, .create .empty), (101, .patch .empty)] [100, 101]
    (by decide) (by norm_num [List.chain'_cons]) (by decide)

/-- Counterexample for C5 as stated: patching the record
`{_id: "a", last_modified: 100}` with an empty body at a current time of
`100` (the patch lands within the same second as the previous write)
succeeds and stores a record identical to the pre-patch one — the
resulting `last_modified` (100) does NOT differ from the pre-patch
value. -/
theorem C5_same_second_patch :
    patch_handler 100
        ⟨[("a", [("_id", Value.VStr "a"), ("last_modified", Value.VInt 100)])], "b"⟩
        "a" RawBody.empty =
      .ok ([("_id", Value.VStr "a"), ("last_modified", Value.VInt 100)],
        ⟨[("a", [("_id", Value.VStr "a"), ("last_modified", Value.VInt 100)])], "b"⟩) := by
  decide

/-- C5 (amended): patch retrieves the existing record, shallow-merges the
deserialized body onto a copy of it, force-sets `last_modified` to the
current epoch time `now` (overriding any `last_modified` supplied in the
body), validates the merged record and only then persists it via the
backend update; the resulting `last_modified` equals `now`, and therefore
differs from the pre-patch value exactly when `now` differs from it. -/
theorem C5_patch_pipeline (now : Int) (db : Db) (record_id : String) (body : RawBody)
    (record modified merged : Rec)
    (hget : db_get db record_id = .ok record)
    (hde : deserialize body = .ok (.dict modified))
    (hval : validate now
        (.dict (dictSet (dictUpdate record modified) "last_modified" (.VInt now))) =
      .ok merged) :
    patch_handler now db record_id body =
      .ok (merged, { db with records := dictSet db.records record_id merged }) ∧
    merged.lookup "last_modified" = some (.VInt now) ∧
    (∀ n : Int, record.lookup "last_modified" = some (.VInt n) →
      ((merged.lookup "last_modified" = record.lookup "last_modified") ↔ now = n)) := by
  have h2 : merged.lookup "last_modified" = some (.VInt now) :=
    validate_lookup_lm now _ merged (.VInt now)
      (by rw [dictSet_lookup_self]; exact TimeStamp_deserialize_int now now) hval
  refine ⟨?_, h2, ?_⟩
  · simp [patch_handler, hget, hde, as_dict, hval, db_update]
  · intro n hn
    rw [h2, hn]
    simp

/-- Witness for C5 (amended): patching `{_id: "a", last_modified: 100}`
with a body that tries to set `last_modified` to `999`, at current time
`200`, stores `last_modified = 200` (the body's value is overridden). -/
theorem C5_patch_pipeline_witness :
    patch_handler 200
        ⟨[("a", [("_id", Value.VStr "a"), ("last_modified", Value.VInt 100)])], "b"⟩
        "a" (.wellFormed (.dict [("last_modified", .VInt 999)])) =
      .ok ([("_id", Value.VStr "a"), ("last_modified", Value.VInt 200)],
        ⟨[("a", [("_id", Value.VStr "a"), ("last_modified", Value.VInt 200)])], "b"⟩) ∧
    ([("_id", Value.VStr "a"), ("last_modified", Value.VInt 200)] : Rec).lookup
        "last_modified" = some (.VInt 200) := by
  have h := C5_patch_pipeline 200
    ⟨[("a", [("_id", Value.VStr "a"), ("last_modified", Value.VInt 100)])], "b"⟩
    "a" (.wellFormed (.dict [("last_modified", .VInt 999)]))
    [("_id", Value.VStr "a"), ("last_modified", Value.VInt 100)]
    [("last_modified", Value.VInt 999)]
    [("_id", Value.VStr "a"), ("last_modified", Value.VInt 200)]
    (by decide) (by decide) (by decide)
  exact ⟨h.1, h.2.1⟩

/-- C6: when `collection_post`'s body fails JSON parsing (a `ValueError`)
or fails schema validation (`colander.Invalid`), the wrapped view returns
no body (so `backend.create` is never reached and no record is created),
the failure does not escape as an exception, the response status is set
to `400 Bad Request`, and the error entries are: one generic body-level
entry for a plain value error, and one body-level entry per offending
field for a structured validation error. -/
theorem C6_collection_post_400 :
    (∀ (now : Int) (db : Db) (e : Errors) (m : String),
      collection_post_view now db (.malformed m) e =
        .ok (none, ⟨e.entries ++ [("body", "body", m)], some "400 Bad Request"⟩)) ∧
    (∀ (now : Int) (db : Db) (body : RawBody) (e : Errors) (d : BodyVal)
        (fieldErrors : List (String × String)),
      deserialize body = .ok d →
      validate now d = .error (.invalid fieldErrors) →
      collection_post_view now db body e =
        .ok (none, ⟨e.entries ++ fieldErrors.map (fun fe => ("body", fe.1, fe.2)),
          some "400 Bad Request"⟩)) := by
  constructor
  · intro now db e m
    simp [collection_post_view, validates_or_400, view_of, collection_post_handler,
      deserialize, add_error]
  · intro now db body e d fieldErrors hde hval
    have hh : collection_post_handler now db body = .error (.invalid fieldErrors) := by
      simp only [collection_post_handler, hde, hval]
    simp [collection_post_view, validates_or_400, view_of, hh,
      fold_add_error_entries, fold_add_error_status]

/-- Witness for C6: a malformed body, and a body whose `last_modified`
cannot be read as an integer, each produce a 400 with the expected error
entries and no created record. -/
theorem C6_collection_post_400_witness :
    collection_post_view 1 ⟨[], "x"⟩ (.malformed "No JSON object could be decoded") ⟨[], none⟩ =
      .ok (none, ⟨[("body", "body", "No JSON object could be decoded")],
        some "400 Bad Request"⟩) ∧
    collection_post_view 1 ⟨[], "x"⟩
        (.wellFormed (.dict [("last_modified", .VStr "abc")])) ⟨[], none⟩ =
      .ok (none, ⟨[("body", "last_modified", "is not a number")], some "400 Bad Request"⟩) := by
  constructor
  · have h := C6_collection_post_400.1 1 ⟨[], "x"⟩ ⟨[], none⟩ "No JSON object could be decoded"
    simpa using h
  · have h := C6_collection_post_400.2 1 ⟨[], "x"⟩
      (.wellFormed (.dict [("last_modified", .VStr "abc")])) ⟨[], none⟩
      (.dict [("last_modified", .VStr "abc")])
      [("last_modified", "is not a number")] (by decide) (by decide)
    simpa using h

/-- C7: when the backend raises its record-not-found error during `get`
(the requested id is absent), the wrapped view adds exactly one
path-level error entry on field `id` carrying the error's message, sets
the response status to `404 Resource Not Found`, returns no body, and
the exception does not propagate past the controller. -/
theorem C7_get_not_found (db : Db) (record_id : String) (e : Errors)
    (h : db.records.lookup record_id = none) :
    get_view db record_id e =
      .ok (none, ⟨e.entries ++ [("path", "id", record_not_found_message record_id)],
        some "404 Resource Not Found"⟩) := by
  have hg : db_get db record_id =
      .error (.recordNotFound (record_not_found_message record_id)) := by
    simp only [db_get, h]
  simp [get_view, exists_or_404, view_of, hg, add_error]

/-- Witness for C7 on an empty backend and the id `"r1"`. -/
theorem C7_get_not_found_witness :
    get_view ⟨[], "z"⟩ "r1" ⟨[], none⟩ =
      .ok (none, ⟨[("path", "id", record_not_found_message "r1")],
        some "404 Resource Not Found"⟩) := by
  have h := C7_get_not_found ⟨[], "z"⟩ "r1" ⟨[], none⟩ rfl
  simpa using h

/-- C10: schema validation silently discards undeclared fields — every
record produced by `validate` on a mapping contains only the declared
field names `_id` and `last_modified`, and `_id` is dropped when absent
from the input, so unknown fields in a create or put body are removed
before the record reaches the backend rather than stored or rejected. -/
theorem C10_validate_drops_unknown (now : Int) (d r : Rec)
    (h : validate now (.dict d) = .ok r) :
    (∀ kv ∈ r, kv.1 = "_id" ∨ kv.1 = "last_modified") ∧
    (d.lookup "_id" = none → r.lookup "_id" = none) := by
  simp only [validate] at h
  rcases hid : string_id_deserialize (d.lookup "_id") with e | idv <;>
      rcases hlm : TimeStamp_deserialize true now (d.lookup "last_modified") with e2 | lmv <;>
      rw [hid, hlm] at h
  · simp [combine_children] at h
  · simp [combine_children] at h
  · simp [combine_children] at h
  · simp only [combine_children, Except.ok.injEq] at h
    constructor
    · intro kv hkv
      rw [← h] at hkv
      rcases List.mem_append.mp hkv with hk | hk
      · exact Or.inl (opt_entry_mem _ _ _ hk)
      · exact Or.inr (opt_entry_mem _ _ _ hk)
    · intro hd0
      rw [hd0] at hid
      have hidv : idv = none := (Except.ok.inj hid).symm
      subst hidv
      rw [← h]
      rcases lmv with _ | w <;> rfl

/-- Witness for C10: a body carrying only the unknown fields `foo` and
`article_url` validates to a record holding only `last_modified`. -/
theorem C10_validate_drops_unknown_witness :
    (∀ kv ∈ ([("last_modified", Value.VInt 7)] : Rec),
      kv.1 = "_id" ∨ kv.1 = "last_modified") ∧
    (([("foo", Value.VInt 1), ("article_url", Value.VStr "x")] : Rec).lookup "_id" = none →
      ([("last_modified", Value.VInt 7)] : Rec).lookup "_id" = none) :=
  C10_validate_drops_unknown 7 [("foo", Value.VInt 1), ("article_url", Value.VStr "x")]
    [("last_modified", Value.VInt 7)] (by decide)

end Readinglist
